import Mathlib

/-!
Shallow embedding of the Pepr WebApp controller, `src/capabilities/index.ts`:
the WebApp admission Mutate/Validate pair, the Pod security Mutate/Validate
pair, and the `Reconcile` entry point together with its observable side
effects (status patches and lifecycle events).

Modelling conventions:
* JavaScript `undefined` is `Option.none`; a `TypeError` raised by reading a
  property of `undefined` is an explicit `JsError` value.
* Timestamps (`new Date()`) are abstract `Nat` ticks threaded in as a
  parameter; the ISO string written by the WebApp Mutate is a `String`
  parameter.
* `Deploy` (the resource generator, external I/O) is abstracted by a
  `DeployResult` parameter saying whether the awaited call succeeded or threw.
* The JavaScript array returned by `getConditions` aliases
  `instance.status.conditions` when that array exists, so pushes are visible
  through the instance; `writeBack` models that aliasing.
-/

deriving instance DecidableEq for Except

namespace PeprArgo

/-- A JavaScript runtime `TypeError` (reading a property of `undefined`). -/
inductive JsError
  | typeError
deriving DecidableEq, Repr

/-- One entry of `status.conditions` (see `WebAppStatusCondition` in
`src/api/v1alpha1/webapp_types.ts`).  `observedGeneration` is `Option Int`
because the failure path of `Reconcile` can write `undefined` into it. -/
structure Condition where
  status : String
  reason : String
  observedGeneration : Option Int
  lastTransitionTime : Nat
deriving DecidableEq, Repr

/-- Model of `WebAppStatus`: the optional `conditions` array. -/
structure Status where
  conditions : Option (List Condition)
deriving DecidableEq, Repr

/-- A WebApp instance as the handlers see it: `metadata.generation`, the three
spec fields, the annotations map, and the optional status. -/
structure WebApp where
  generation : Option Int
  language : String
  replicas : Int
  theme : String
  anns : List (String × String)
  status : Option Status
deriving DecidableEq, Repr

/-- Evaluation of `wa.Raw.status?.conditions || []` followed by taking the element at
`conditions.length - 1` with an optional chain (`?.`), as both WebApp
admission handlers do. -/
def lastCondOf (wa : WebApp) : Option Condition :=
  ((wa.status.bind Status.conditions).getD []).getLast?

/-- The admission pass-through test: `conditions[conditions.length - 1]?.status
=== "Pending"`. -/
def lastStatusIsPending (wa : WebApp) : Bool :=
  match lastCondOf wa with
  | some c => c.status == "Pending"
  | none => false

/-- Model of `SetAnnotation`: overwrite the key if present, append it otherwise. -/
def setAnn (k v : String) : List (String × String) → List (String × String)
  | [] => [(k, v)]
  | (k', v') :: rest => if k' = k then (k, v) :: rest else (k', v') :: setAnn k v rest

/-- The WebApp Mutate handler: pass through when the last condition is
`Pending`, otherwise stamp the `pepr.dev/latest-admission-pass` annotation
with the current time (`nowIso`). -/
def waMutate (nowIso : String) (wa : WebApp) : WebApp :=
  if lastStatusIsPending wa then wa
  else { wa with anns := setAnn "pepr.dev/latest-admission-pass" nowIso wa.anns }

/-- An admission decision of the WebApp Validate handler: `wa.Approve()` or
`wa.Deny(message, code, warnings)`. -/
inductive Decision
  | approve
  | deny (message : String) (code : Nat) (warnings : List String)
deriving DecidableEq, Repr

/-- Warning pushed when `language` is invalid. -/
def langMsg : String := "language must be either 'english' or 'spanish'"

/-- Warning pushed when `replicas` is invalid. -/
def replMsg : String := "replicas must be greater than 0"

/-- Warning pushed when `theme` is invalid. -/
def themeMsg : String := "theme must be either 'dark' or 'light'"

/-- The WebApp Validate handler: pass through when the last condition is
`Pending`; otherwise collect a warning for each of the three spec checks and
deny with 422 when any was pushed. -/
def waValidate (wa : WebApp) : Decision :=
  if lastStatusIsPending wa then Decision.approve
  else
    let warnings : List String :=
      (if !(["english", "spanish"].contains wa.language) then [langMsg] else []) ++
      (if wa.replicas < 1 then [replMsg] else []) ++
      (if !(["dark", "light"].contains wa.theme) then [themeMsg] else [])
    if warnings.length > 0 then Decision.deny "Spec field is incorrect" 422 warnings
    else Decision.approve

/-- Spec-side predicate: `language` is one of `english`, `spanish`. -/
def languageValid (wa : WebApp) : Prop :=
  wa.language = "english" ∨ wa.language = "spanish"

/-- Spec-side predicate: `replicas ≥ 1`. -/
def replicasValid (wa : WebApp) : Prop := 1 ≤ wa.replicas

/-- Spec-side predicate: `theme` is one of `dark`, `light`. -/
def themeValid (wa : WebApp) : Prop :=
  wa.theme = "dark" ∨ wa.theme = "light"

instance (wa : WebApp) : Decidable (languageValid wa) := by
  unfold languageValid; infer_instance

instance (wa : WebApp) : Decidable (replicasValid wa) := by
  unfold replicasValid; infer_instance

instance (wa : WebApp) : Decidable (themeValid wa) := by
  unfold themeValid; infer_instance

/-- Model of `securityContext.capabilities`: the optional `add` list. -/
structure Capabilities where
  add : Option (List String)
deriving DecidableEq, Repr

/-- A container's `securityContext`; every field is optional in Kubernetes. -/
structure SecurityContext where
  allowPrivilegeEscalation : Option Bool
  privileged : Option Bool
  capabilities : Option Capabilities
deriving DecidableEq, Repr

/-- A pod container, reduced to the one field the policy reads and writes. -/
structure Container where
  securityContext : Option SecurityContext
deriving DecidableEq, Repr

/-- The `\x7b\x7d` installed by `container.securityContext = container.securityContext || \x7b\x7d`. -/
def emptySC : SecurityContext := ⟨none, none, none⟩

/-- Evaluation of `securityContext.capabilities?.add?.includes(cap)`, with JavaScript
`undefined` collapsing to a falsy result. -/
def capAddIncludes (sc : SecurityContext) (cap : String) : Bool :=
  match sc.capabilities with
  | none => false
  | some cs =>
    match cs.add with
    | none => false
    | some l => l.contains cap

/-- The `mutateCriteria` array of the Pod Mutate body, conjoined
(`.every(priv => priv === true)`): `allowPrivilegeEscalation` unset,
`privileged` falsy, and no `CAP_SYS_ADMIN` among the added capabilities. -/
def mutateCriteria (sc : SecurityContext) : Bool :=
  sc.allowPrivilegeEscalation.isNone &&
  !(sc.privileged.getD false) &&
  !(capAddIncludes sc "CAP_SYS_ADMIN")

/-- The Pod Mutate body for one container: materialize the security context,
then set `allowPrivilegeEscalation = false` when all three `mutateCriteria`
hold. -/
def mutateContainer (c : Container) : Container :=
  let sc := c.securityContext.getD emptySC
  if mutateCriteria sc then
    ⟨some { sc with allowPrivilegeEscalation := some false }⟩
  else
    ⟨some sc⟩

/-- The Pod Mutate handler: the per-container mutation over `containers(request)`. -/
def podMutate (cs : List Container) : List Container :=
  cs.map mutateContainer

/-- The Pod Validate filter predicate,
`(c.securityContext.allowPrivilegeEscalation ?? true) || c.securityContext.privileged`:
reading a field of an absent `securityContext` throws. -/
def violatesEsc (c : Container) : Except JsError Bool :=
  match c.securityContext with
  | none => Except.error JsError.typeError
  | some sc => Except.ok ((sc.allowPrivilegeEscalation.getD true) || (sc.privileged.getD false))

/-- Model of `containers(request).filter(...)`: it evaluates the predicate container by
container, so the first container that throws aborts the whole call. -/
def collectViolations : List Container → Except JsError (List Bool)
  | [] => Except.ok []
  | c :: cs =>
    match violatesEsc c with
    | Except.error e => Except.error e
    | Except.ok b =>
      match collectViolations cs with
      | Except.error e => Except.error e
      | Except.ok bs => Except.ok (b :: bs)

/-- A Pod admission decision: `request.Approve()` or `request.Deny(message, code)`. -/
inductive PodDecision
  | approve
  | deny (message : String) (code : Nat)
deriving DecidableEq, Repr

/-- The Pod Validate handler: deny with 403 when the violation filter kept
anything, approve otherwise; a `TypeError` in the filter propagates. -/
def podValidate (cs : List Container) : Except JsError PodDecision :=
  match collectViolations cs with
  | Except.error e => Except.error e
  | Except.ok flags =>
    if flags.any id then Except.ok (PodDecision.deny "Privilege escalation is disallowed" 403)
    else Except.ok PodDecision.approve

/-- The claim's pod postcondition: `allowPrivilegeEscalation = false ∨
privileged = true ∨ capability-raise present`, read through the materialized
security context. -/
def escSafe (c : Container) : Prop :=
  (c.securityContext.getD emptySC).allowPrivilegeEscalation = some false ∨
  (c.securityContext.getD emptySC).privileged = some true ∨
  capAddIncludes (c.securityContext.getD emptySC) "CAP_SYS_ADMIN" = true

instance (c : Container) : Decidable (escSafe c) := by
  unfold escSafe; infer_instance

/-- The amended pod postcondition: after Mutate, `allowPrivilegeEscalation` is
set (to `false` or to its original explicit value) ∨ `privileged = true` ∨
capability-raise present. -/
def escSafeAmended (c : Container) : Prop :=
  (c.securityContext.getD emptySC).allowPrivilegeEscalation ≠ none ∨
  (c.securityContext.getD emptySC).privileged = some true ∨
  capAddIncludes (c.securityContext.getD emptySC) "CAP_SYS_ADMIN" = true

instance (c : Container) : Decidable (escSafeAmended c) := by
  unfold escSafeAmended; infer_instance

/-- Outcome of the awaited `Deploy(instance)` call (the resource generator,
external I/O): it either returns or throws. -/
inductive DeployResult
  | success
  | failure
deriving DecidableEq, Repr

/-- One observable side effect of `Reconcile`, in program order: a
`PatchStatus` call (recording the status argument it was given, `none` for
`undefined`) or a `writeEvent` call (event reason, message). -/
inductive Emitted
  | patch (st : Option Status)
  | event (reason msg : String)
deriving DecidableEq, Repr

/-- What one `Reconcile` invocation did: the in-memory instance after the
aliased pushes, the ordered side-effect trace, and the JavaScript error it
ended with, if any. -/
structure ReconcileOutput where
  finalInst : WebApp
  trace : List Emitted
  error : Option JsError
deriving DecidableEq, Repr

/-- The default `\x7bstatus: "", reason: ""\x7d` object substituted for a missing
last condition (its other two fields are never read). -/
def emptyCondition : Condition := ⟨"", "", none, 0⟩

/-- Evaluation of
`instance.status?.conditions?.[instance.status?.conditions.length - 1].observedGeneration`:
the final field read is not optional-chained, so an empty conditions array
(index `-1` giving `undefined`) throws a `TypeError`. -/
def readObservedGeneration (inst : WebApp) : Except JsError (Option Int) :=
  match inst.status with
  | none => Except.ok none
  | some st =>
    match st.conditions with
    | none => Except.ok none
    | some conds =>
      match conds.getLast? with
      | none => Except.error JsError.typeError
      | some c => Except.ok c.observedGeneration

/-- Evaluation of the `latestCondition` read,
`instance.status?.conditions[...length - 1] || \x7bstatus: "", reason: ""\x7d`:
no optional chain after `conditions`, so a present status whose `conditions`
field is `undefined` throws; a missing element falls back to the default. -/
def readLatestCondition (inst : WebApp) : Except JsError Condition :=
  match inst.status with
  | none => Except.ok emptyCondition
  | some st =>
    match st.conditions with
    | none => Except.error JsError.typeError
    | some conds => Except.ok (conds.getLast?.getD emptyCondition)

/-- Model of `getConditions`: `instance.status?.conditions || []`. -/
def getConditions (inst : WebApp) : List Condition :=
  match inst.status with
  | none => []
  | some st => st.conditions.getD []

/-- JavaScript aliasing: the array `getConditions` returns is
`instance.status.conditions` itself when that array exists, so pushes onto it
are visible through the instance; otherwise the instance is untouched. -/
def writeBack (inst : WebApp) (conds : List Condition) : WebApp :=
  match inst.status with
  | none => inst
  | some st =>
    match st.conditions with
    | none => inst
    | some _ => { inst with status := some ⟨some conds⟩ }

/-- The catch block's read
`instance.status?.conditions?.[instance.status?.conditions?.length].observedGeneration`:
index `length` is one past the end, so whenever the conditions array exists
the element is `undefined` and the field read throws. -/
def readFailedOG (inst : WebApp) : Except JsError (Option Int) :=
  match inst.status with
  | none => Except.ok none
  | some st =>
    match st.conditions with
    | none => Except.ok none
    | some _ => Except.error JsError.typeError

/-- The body of `Reconcile` once the guard has passed: push the `Pending`
condition, patch and emit, await `Deploy`, then either push `Ready` and patch
and emit, or run the catch block. On failure the status persisted is
`instance.status` (the in-memory object), not the `\x7bconditions\x7d` wrapper used
on the other two patches. -/
def deployPhase (inst : WebApp) (d : DeployResult) (now : Nat) : ReconcileOutput :=
  let generation := inst.generation
  let conditions1 := getConditions inst ++ [⟨"Pending", "Processing", generation, now⟩]
  let inst1 := writeBack inst conditions1
  let prefixTrace : List Emitted :=
    [Emitted.patch (some ⟨some conditions1⟩), Emitted.event "InstanceCreatedOrUpdated" "Pending"]
  match d with
  | DeployResult.success =>
    let conditions2 := conditions1 ++ [⟨"Ready", "Reconciled", generation, now + 1⟩]
    ⟨writeBack inst1 conditions2,
      prefixTrace ++
        [Emitted.patch (some ⟨some conditions2⟩),
         Emitted.event "InstanceCreatedOrUpdated" "Reconciled"],
      none⟩
  | DeployResult.failure =>
    match readFailedOG inst1 with
    | Except.error e => ⟨inst1, prefixTrace, some e⟩
    | Except.ok og =>
      let conditions2 := conditions1 ++ [⟨"Failed", "Could not reconcile", og, now + 1⟩]
      let inst2 := writeBack inst1 conditions2
      ⟨inst2,
        prefixTrace ++
          [Emitted.patch inst2.status, Emitted.event "InstanceCreatedOrUpdated" "Failed"],
        none⟩

/-- The `Reconcile` entry point: read `generation`, `observedGeneration` and
the latest condition, evaluate the `shouldDeploy` guard, and either no-op or
run the deployment phase. -/
def Reconcile (inst : WebApp) (d : DeployResult) (now : Nat) : ReconcileOutput :=
  match readObservedGeneration inst with
  | Except.error e => ⟨inst, [], some e⟩
  | Except.ok observedGeneration =>
    match readLatestCondition inst with
    | Except.error e => ⟨inst, [], some e⟩
    | Except.ok latestCondition =>
      let isPending :=
        latestCondition.status == "Pending" || latestCondition.reason == "Processing"
      let shouldDeploy := inst.generation != observedGeneration && !isPending
      if shouldDeploy then deployPhase inst d now
      else ⟨inst, [], none⟩

/-- The status the API server holds after a trace of `PatchStatus` calls: each
patch carrying a status replaces it; a patch carrying `undefined` and the
events change nothing. -/
def applyTrace (s0 : Option Status) : List Emitted → Option Status
  | [] => s0
  | Emitted.patch (some st) :: ts => applyTrace (some st) ts
  | Emitted.patch none :: ts => applyTrace s0 ts
  | Emitted.event _ _ :: ts => applyTrace s0 ts

/-- A `Ready` condition for generation 1, as left by an earlier cycle. -/
def readyCond1 : Condition := ⟨"Ready", "Reconciled", some 1, 0⟩

/-- An instance at generation 2 whose ledger holds one `Ready` condition for
generation 1: the guard fires on it. -/
def instReady1 : WebApp :=
  ⟨some 2, "english", 1, "dark", [], some ⟨some [readyCond1]⟩⟩

/-- An instance whose status is present but whose conditions array is empty. -/
def instEmptyConds : WebApp := ⟨some 1, "english", 1, "dark", [], some ⟨some []⟩⟩

/-- An instance with an invalid spec whose last condition is `Pending`. -/
def waPendingBad : WebApp :=
  ⟨some 3, "french", 0, "blue", [], some ⟨some [⟨"Pending", "Processing", some 3, 0⟩]⟩⟩

/-- An instance with invalid `language` and `theme` and no status. -/
def waInvalid : WebApp := ⟨some 3, "french", 1, "blue", [], none⟩

/-- A container that explicitly sets `allowPrivilegeEscalation: true`. -/
def cApeTrue : Container := ⟨some ⟨some true, none, none⟩⟩

/-- A container with no `securityContext` at all. -/
def cPlain : Container := ⟨none⟩

/-- A container that explicitly sets both security booleans to `false`. -/
def cFalse : Container := ⟨some ⟨some false, some false, none⟩⟩

/-- C3: if the last Condition of a WebApp has status `Pending`, Mutate returns
the object unmodified and Validate returns Approve, regardless of the spec
fields' validity. -/
theorem admission_pending_pass_through (wa : WebApp) (c : Condition) (nowIso : String)
    (hc : lastCondOf wa = some c) (hp : c.status = "Pending") :
    waMutate nowIso wa = wa ∧ waValidate wa = Decision.approve := by
  have hb : lastStatusIsPending wa = true := by
    unfold lastStatusIsPending
    rw [hc]
    simp [hp]
  constructor
  · simp [waMutate, hb]
  · simp [waValidate, hb]

/-- Witness for C3: a concrete pending instance with invalid `language`,
`replicas` and `theme` passes through both handlers untouched. -/
theorem admission_pending_pass_through_witness :
    waMutate "2026-10-11T00:00:00Z" waPendingBad = waPendingBad ∧
      waValidate waPendingBad = Decision.approve :=
  admission_pending_pass_through waPendingBad ⟨"Pending", "Processing", some 3, 0⟩
    "2026-10-11T00:00:00Z" (by decide) (by decide)

/-- C6: the Pod Validate handler throws a `TypeError` on a container with no
`securityContext` (it reads `c.securityContext.allowPrivilegeEscalation`
without an optional chain), instead of treating the unset field as `true` and
denying with 403. -/
theorem pod_validate_faults_without_sc :
    podValidate [cPlain] = Except.error JsError.typeError := rfl

/-- C9: on an instance whose status is present but whose conditions array is
empty, `Reconcile` throws a `TypeError` while reading
`conditions[length - 1].observedGeneration` (index `-1` gives `undefined`),
before reaching the guard or the default empty condition, with no patch and
no event issued. -/
theorem reconcile_empty_ledger_faults :
    Reconcile instEmptyConds DeployResult.success 0 =
      ⟨instEmptyConds, [], some JsError.typeError⟩ := rfl

/-- C2: on a guard-firing instance with an existing ledger whose deployment
fails, the catch block throws a `TypeError` reading
`conditions[conditions.length].observedGeneration` (index one past the end):
only the `Pending` condition is appended, patched and announced; no `Failed`
condition is appended, no failure status is persisted, and no `Failed` event
is emitted. -/
theorem reconcile_failure_path_diverges :
    Reconcile instReady1 DeployResult.failure 5 =
      ⟨{ instReady1 with
          status := some ⟨some [readyCond1, ⟨"Pending", "Processing", some 2, 5⟩]⟩ },
       [Emitted.patch (some ⟨some [readyCond1, ⟨"Pending", "Processing", some 2, 5⟩]⟩),
        Emitted.event "InstanceCreatedOrUpdated" "Pending"],
       some JsError.typeError⟩ := rfl

/-- C5 counterexample: a container that explicitly sets
`allowPrivilegeEscalation: true` without `privileged` or added capabilities is
left unchanged by the Pod Mutate step, and afterwards satisfies none of
`allowPrivilegeEscalation = false`, `privileged = true`, capability-raise
present. -/
theorem pod_mutate_postcondition_cex :
    podMutate [cApeTrue] = [cApeTrue] ∧ ¬ escSafe cApeTrue := by decide

/-- C7 counterexample: the object the Pod Mutate step produces from a pod
whose container explicitly sets `allowPrivilegeEscalation: true` is denied by
the Pod Validate step, so Validate ∘ Mutate is not Approve on every pod. -/
theorem mutate_then_validate_cex :
    podValidate (podMutate [cApeTrue]) =
        Except.ok (PodDecision.deny "Privilege escalation is disallowed" 403) ∧
      podValidate (podMutate [cApeTrue]) ≠ Except.ok PodDecision.approve := by decide

/-- The three mutation criteria, phrased on the option fields. -/
theorem mutateCriteria_iff (s : SecurityContext) :
    mutateCriteria s = true ↔
      (s.allowPrivilegeEscalation = none ∧ s.privileged ≠ some true ∧
        capAddIncludes s "CAP_SYS_ADMIN" = false) := by
  rcases s with ⟨ape, priv, caps⟩
  rcases ape with _ | b
  · rcases priv with _ | pb
    · simp [mutateCriteria]
    · cases pb <;> simp [mutateCriteria]
  · simp [mutateCriteria]

/-- A second application of the per-container mutation changes nothing. -/
theorem mutateContainer_idem (c : Container) :
    mutateContainer (mutateContainer c) = mutateContainer c := by
  by_cases hc : mutateCriteria (c.securityContext.getD emptySC)
  · have h2 : mutateCriteria
        { c.securityContext.getD emptySC with allowPrivilegeEscalation := some false } = false := by
      simp [mutateCriteria]
    simp [mutateContainer, hc, h2]
  · simp [mutateContainer, hc]

/-- C10: the Pod Mutate step is idempotent: applying it twice yields exactly
the containers of a single application, since a container whose
`allowPrivilegeEscalation` was set to `false` no longer satisfies the unset
criterion. -/
theorem pod_mutate_idempotent (cs : List Container) :
    podMutate (podMutate cs) = podMutate cs := by
  induction cs with
  | nil => rfl
  | cons c cs ih =>
    simp only [podMutate, List.map_cons] at ih ⊢
    rw [mutateContainer_idem c, ih]

/-- C5 (amended): the Pod Mutate step sets `allowPrivilegeEscalation = false`
iff the field is unset, `privileged` is falsy and no `CAP_SYS_ADMIN` is added;
otherwise the security context keeps its fields.  Hence after Mutate every
container satisfies `allowPrivilegeEscalation` set `∨ privileged = true ∨`
capability-raise present — not the claimed `allowPrivilegeEscalation = false`
first disjunct, since an explicit `true` is preserved. -/
theorem pod_mutate_guarded_default (c : Container) (sc : SecurityContext)
    (hsc : c.securityContext.getD emptySC = sc) :
    (sc.allowPrivilegeEscalation = none → sc.privileged ≠ some true →
        capAddIncludes sc "CAP_SYS_ADMIN" = false →
      mutateContainer c = ⟨some { sc with allowPrivilegeEscalation := some false }⟩) ∧
    ((sc.allowPrivilegeEscalation ≠ none ∨ sc.privileged = some true ∨
        capAddIncludes sc "CAP_SYS_ADMIN" = true) →
      mutateContainer c = ⟨some sc⟩) ∧
    escSafeAmended (mutateContainer c) := by
  subst hsc
  refine ⟨fun h1 h2 h3 => ?_, fun h => ?_, ?_⟩
  · have hc : mutateCriteria (c.securityContext.getD emptySC) = true :=
      (mutateCriteria_iff _).mpr ⟨h1, h2, h3⟩
    simp [mutateContainer, hc]
  · have hc : mutateCriteria (c.securityContext.getD emptySC) = false := by
      rcases Bool.eq_false_or_eq_true (mutateCriteria (c.securityContext.getD emptySC)) with
        ht | hf
      · rcases (mutateCriteria_iff _).mp ht with ⟨e1, e2, e3⟩
        rcases h with h | h | h
        · exact absurd e1 h
        · exact absurd h e2
        · rw [e3] at h; exact absurd h (by simp)
      · exact hf
    simp [mutateContainer, hc]
  · by_cases hc : mutateCriteria (c.securityContext.getD emptySC)
    · simp [mutateContainer, hc, escSafeAmended]
    · have hne := hc
      rw [mutateCriteria_iff] at hne
      simp only [not_and_or, not_not, ne_eq] at hne
      simp only [mutateContainer, hc, if_neg, Bool.false_eq_true, not_false_eq_true,
        if_false, escSafeAmended, Option.getD_some]
      rcases hne with h | h | h
      · exact Or.inl h
      · exact Or.inr (Or.inl h)
      · refine Or.inr (Or.inr ?_)
        rcases Bool.eq_false_or_eq_true (capAddIncludes (c.securityContext.getD emptySC)
          "CAP_SYS_ADMIN") with ht | hf
        · exact ht
        · exact absurd hf h

/-- Witness for C5 (amended): a container with no security context gets the
safe default and satisfies the amended postcondition. -/
theorem pod_mutate_guarded_default_witness :
    mutateContainer cPlain = ⟨some { emptySC with allowPrivilegeEscalation := some false }⟩ ∧
      escSafeAmended (mutateContainer cPlain) :=
  ⟨(pod_mutate_guarded_default cPlain emptySC rfl).1 rfl (by decide) rfl,
   (pod_mutate_guarded_default cPlain emptySC rfl).2.2⟩

/-- An `Option Bool` that is not `some true` defaults to a falsy read. -/
theorem getD_false_of_ne_some_true (o : Option Bool) (h : o ≠ some true) :
    o.getD false = false := by
  rcases o with _ | b
  · rfl
  · cases b
    · rfl
    · exact absurd rfl h

/-- A mutated container of a pod with no explicit privilege request passes
the violation filter. -/
theorem violatesEsc_mutate (c : Container)
    (h1 : (c.securityContext.getD emptySC).allowPrivilegeEscalation ≠ some true)
    (h2 : (c.securityContext.getD emptySC).privileged ≠ some true)
    (h3 : capAddIncludes (c.securityContext.getD emptySC) "CAP_SYS_ADMIN" = false) :
    violatesEsc (mutateContainer c) = Except.ok false := by
  by_cases hc : mutateCriteria (c.securityContext.getD emptySC)
  · simp [mutateContainer, hc, violatesEsc, getD_false_of_ne_some_true _ h2]
  · have hne := hc
    rw [mutateCriteria_iff] at hne
    simp only [not_and_or, not_not, ne_eq] at hne
    have hape : (c.securityContext.getD emptySC).allowPrivilegeEscalation = some false := by
      rcases hne with h | h | h
      · rcases hh : (c.securityContext.getD emptySC).allowPrivilegeEscalation with _ | b
        · exact absurd hh h
        · cases b
          · rfl
          · exact absurd hh h1
      · exact absurd h h2
      · exact absurd h3 h
    simp [mutateContainer, hc, violatesEsc, hape, getD_false_of_ne_some_true _ h2]

/-- Over a whole pod with no explicit privilege request, the violation filter
keeps nothing. -/
theorem collectViolations_mutate (cs : List Container)
    (h : ∀ c ∈ cs, (c.securityContext.getD emptySC).allowPrivilegeEscalation ≠ some true ∧
        (c.securityContext.getD emptySC).privileged ≠ some true ∧
        capAddIncludes (c.securityContext.getD emptySC) "CAP_SYS_ADMIN" = false) :
    collectViolations (podMutate cs) = Except.ok (cs.map fun _ => false) := by
  revert h
  induction cs with
  | nil => intro _; rfl
  | cons c cs ih =>
    intro h
    have hc := h c (List.mem_cons_self c cs)
    have ihh := ih fun c' hc' => h c' (List.mem_cons_of_mem c hc')
    simp only [podMutate, List.map_cons] at ihh ⊢
    rw [collectViolations, violatesEsc_mutate c hc.1 hc.2.1 hc.2.2, ihh]

/-- C7 (amended): for every pod in which no container explicitly requests
elevated privilege (`allowPrivilegeEscalation: true`, `privileged: true`, or
an added `CAP_SYS_ADMIN`), the object the Mutate step produces passes the
Validate step. -/
theorem mutate_then_validate_approve (cs : List Container)
    (h : ∀ c ∈ cs, (c.securityContext.getD emptySC).allowPrivilegeEscalation ≠ some true ∧
        (c.securityContext.getD emptySC).privileged ≠ some true ∧
        capAddIncludes (c.securityContext.getD emptySC) "CAP_SYS_ADMIN" = false) :
    podValidate (podMutate cs) = Except.ok PodDecision.approve := by
  rw [podValidate, collectViolations_mutate cs h]
  simp

/-- Witness for C7 (amended): a pod with one bare container and one container
that explicitly opts out of escalation is approved after mutation. -/
theorem mutate_then_validate_approve_witness :
    podValidate (podMutate [cPlain, cFalse]) = Except.ok PodDecision.approve :=
  mutate_then_validate_approve [cPlain, cFalse] (by decide)

/-- C4: on a non-pending WebApp request, Validate approves iff all three spec
predicates hold, and otherwise denies with 422 and a warning list containing
the message of a predicate iff that predicate is violated — every violated
predicate is listed, not just the first. -/
theorem validate_collects_all_violations (wa : WebApp)
    (hnp : lastStatusIsPending wa = false) :
    (waValidate wa = Decision.approve ↔ (languageValid wa ∧ replicasValid wa ∧ themeValid wa)) ∧
    (¬(languageValid wa ∧ replicasValid wa ∧ themeValid wa) →
      ∃ ws, waValidate wa = Decision.deny "Spec field is incorrect" 422 ws ∧
        (langMsg ∈ ws ↔ ¬languageValid wa) ∧
        (replMsg ∈ ws ↔ ¬replicasValid wa) ∧
        (themeMsg ∈ ws ↔ ¬themeValid wa)) := by
  by_cases hl : languageValid wa <;> by_cases hr : replicasValid wa <;>
    by_cases ht : themeValid wa
  · have pl : ¬(¬wa.language = "english" ∧ ¬wa.language = "spanish") :=
      fun h => h.2 (hl.resolve_left h.1)
    have pt : ¬(¬wa.theme = "dark" ∧ ¬wa.theme = "light") :=
      fun h => h.2 (ht.resolve_left h.1)
    have bR : ¬ (wa.replicas < 1) := not_lt.mpr hr
    simp [waValidate, hnp, pl, pt, bR, hl, hr, ht, langMsg, replMsg, themeMsg]
  · have pl : ¬(¬wa.language = "english" ∧ ¬wa.language = "spanish") :=
      fun h => h.2 (hl.resolve_left h.1)
    have pt : ¬wa.theme = "dark" ∧ ¬wa.theme = "light" := not_or.mp ht
    have bR : ¬ (wa.replicas < 1) := not_lt.mpr hr
    simp [waValidate, hnp, pl, pt.1, pt.2, bR, hl, hr, ht, langMsg, replMsg, themeMsg]
  · have pl : ¬(¬wa.language = "english" ∧ ¬wa.language = "spanish") :=
      fun h => h.2 (hl.resolve_left h.1)
    have pt : ¬(¬wa.theme = "dark" ∧ ¬wa.theme = "light") :=
      fun h => h.2 (ht.resolve_left h.1)
    have bR : wa.replicas < 1 := not_le.mp hr
    simp [waValidate, hnp, pl, pt, bR, hl, hr, ht, langMsg, replMsg, themeMsg]
  · have pl : ¬(¬wa.language = "english" ∧ ¬wa.language = "spanish") :=
      fun h => h.2 (hl.resolve_left h.1)
    have pt : ¬wa.theme = "dark" ∧ ¬wa.theme = "light" := not_or.mp ht
    have bR : wa.replicas < 1 := not_le.mp hr
    simp [waValidate, hnp, pl, pt.1, pt.2, bR, hl, hr, ht, langMsg, replMsg, themeMsg]
  · have pl : ¬wa.language = "english" ∧ ¬wa.language = "spanish" := not_or.mp hl
    have pt : ¬(¬wa.theme = "dark" ∧ ¬wa.theme = "light") :=
      fun h => h.2 (ht.resolve_left h.1)
    have bR : ¬ (wa.replicas < 1) := not_lt.mpr hr
    simp [waValidate, hnp, pl.1, pl.2, pt, bR, hl, hr, ht, langMsg, replMsg, themeMsg]
  · have pl : ¬wa.language = "english" ∧ ¬wa.language = "spanish" := not_or.mp hl
    have pt : ¬wa.theme = "dark" ∧ ¬wa.theme = "light" := not_or.mp ht
    have bR : ¬ (wa.replicas < 1) := not_lt.mpr hr
    simp [waValidate, hnp, pl.1, pl.2, pt.1, pt.2, bR, hl, hr, ht, langMsg, replMsg, themeMsg]
  · have pl : ¬wa.language = "english" ∧ ¬wa.language = "spanish" := not_or.mp hl
    have pt : ¬(¬wa.theme = "dark" ∧ ¬wa.theme = "light") :=
      fun h => h.2 (ht.resolve_left h.1)
    have bR : wa.replicas < 1 := not_le.mp hr
    simp [waValidate, hnp, pl.1, pl.2, pt, bR, hl, hr, ht, langMsg, replMsg, themeMsg]
  · have pl : ¬wa.language = "english" ∧ ¬wa.language = "spanish" := not_or.mp hl
    have pt : ¬wa.theme = "dark" ∧ ¬wa.theme = "light" := not_or.mp ht
    have bR : wa.replicas < 1 := not_le.mp hr
    simp [waValidate, hnp, pl.1, pl.2, pt.1, pt.2, bR, hl, hr, ht, langMsg, replMsg, themeMsg]

/-- Witness for C4: a concrete spec with invalid language and theme but valid
replicas is denied with exactly those two messages. -/
theorem validate_collects_all_violations_witness :
    ¬(languageValid waInvalid ∧ replicasValid waInvalid ∧ themeValid waInvalid) ∧
      (waValidate waInvalid = Decision.approve ↔
        (languageValid waInvalid ∧ replicasValid waInvalid ∧ themeValid waInvalid)) :=
  ⟨by decide, (validate_collects_all_violations waInvalid (by decide)).1⟩

/-- C8: on an instance with a non-empty ledger whose last condition records a
different generation and is neither `Pending` nor reason `Processing`, a
successful reconciliation appends exactly two conditions in order —
`Pending`/`Processing` then `Ready`/`Reconciled`, both with
`observedGeneration = generation` — patching the status and emitting an
`InstanceCreatedOrUpdated` event after each append. -/
theorem reconcile_success_two_appends (inst : WebApp) (conds : List Condition)
    (c : Condition) (g : Int) (now : Nat)
    (hst : inst.status = some ⟨some conds⟩)
    (hlast : conds.getLast? = some c)
    (hgen : inst.generation = some g)
    (hog : c.observedGeneration ≠ some g)
    (hp : c.status ≠ "Pending")
    (hr : c.reason ≠ "Processing") :
    Reconcile inst DeployResult.success now =
      ⟨{ inst with status := some ⟨some (conds ++
            [⟨"Pending", "Processing", some g, now⟩,
             ⟨"Ready", "Reconciled", some g, now + 1⟩])⟩ },
       [Emitted.patch (some ⟨some (conds ++ [⟨"Pending", "Processing", some g, now⟩])⟩),
        Emitted.event "InstanceCreatedOrUpdated" "Pending",
        Emitted.patch (some ⟨some (conds ++
            [⟨"Pending", "Processing", some g, now⟩,
             ⟨"Ready", "Reconciled", some g, now + 1⟩])⟩),
        Emitted.event "InstanceCreatedOrUpdated" "Reconciled"],
       none⟩ := by
  have hguard : ((some g : Option Int) != c.observedGeneration) = true := by
    simp [bne_iff_ne]
    exact fun he => hog he.symm
  have hb1 : (c.status == "Pending") = false := by
    simp [hp]
  have hb2 : (c.reason == "Processing") = false := by
    simp [hr]
  simp only [Reconcile, readObservedGeneration, readLatestCondition, getConditions,
    deployPhase, writeBack, hst, hgen, hlast, hguard, hb1, hb2, Option.getD_some,
    Bool.or_self, Bool.not_false, Bool.and_self, Bool.and_true, if_true]
  simp [List.append_assoc]

/-- Witness for C8: the concrete generation-2 instance with a generation-1
`Ready` ledger gets exactly `Pending(2)` then `Ready(2)` appended, with a
patch and an event after each. -/
theorem reconcile_success_two_appends_witness :
    Reconcile instReady1 DeployResult.success 5 =
      ⟨{ instReady1 with status := some ⟨some [readyCond1,
          ⟨"Pending", "Processing", some 2, 5⟩, ⟨"Ready", "Reconciled", some 2, 6⟩]⟩ },
       [Emitted.patch (some ⟨some [readyCond1, ⟨"Pending", "Processing", some 2, 5⟩]⟩),
        Emitted.event "InstanceCreatedOrUpdated" "Pending",
        Emitted.patch (some ⟨some [readyCond1, ⟨"Pending", "Processing", some 2, 5⟩,
          ⟨"Ready", "Reconciled", some 2, 6⟩]⟩),
        Emitted.event "InstanceCreatedOrUpdated" "Reconciled"],
       none⟩ :=
  reconcile_success_two_appends instReady1 [readyCond1] readyCond1 2 5 rfl rfl rfl
    (by decide) (by decide) (by decide)

/-- C1: the reconciliation state machine is idempotent: when an invocation of
`Reconcile` runs to completion, a second invocation on the resulting persisted
state (same generation) is a no-op — it appends no condition, issues no status
patch and emits no event — because the `shouldDeploy` guard is false on the
second call. -/
theorem reconcile_second_call_noop (inst : WebApp) (d d' : DeployResult) (now now' : Nat)
    (h : (Reconcile inst d now).error = none) :
    Reconcile { inst with status := applyTrace inst.status (Reconcile inst d now).trace }
        d' now' =
      ⟨{ inst with status := applyTrace inst.status (Reconcile inst d now).trace },
       [], none⟩ := by
  obtain ⟨gen, lang, repl, thm, anns, st⟩ := inst
  rcases st with _ | ⟨conds?⟩
  · -- status undefined: the guard reads default values
    rcases gen with _ | g
    · rfl
    · rcases d with _ | _
      · simp [Reconcile, readObservedGeneration, readLatestCondition, getConditions,
          deployPhase, writeBack, readFailedOG, applyTrace]
      · simp [Reconcile, readObservedGeneration, readLatestCondition, getConditions,
          deployPhase, writeBack, readFailedOG, applyTrace]
  · rcases conds? with _ | conds
    · -- status present but conditions undefined: the first call already threw
      simp [Reconcile, readObservedGeneration, readLatestCondition] at h
    · rcases hL : conds.getLast? with _ | c
      · -- empty conditions array: the first call already threw
        simp [Reconcile, readObservedGeneration, hL] at h
      · by_cases hga : (¬gen = c.observedGeneration ∧ ¬c.status = "Pending" ∧
            ¬c.reason = "Processing")
        · -- the guard fired on the first call
          rcases d with _ | _
          · simp [Reconcile, readObservedGeneration, readLatestCondition, getConditions,
              deployPhase, writeBack, readFailedOG, applyTrace, hL, hga.1, hga.2.1,
              hga.2.2, List.getLast?_concat]
          · -- deployment failure with an existing ledger: the catch block threw
            simp [Reconcile, readObservedGeneration, readLatestCondition, getConditions,
              deployPhase, writeBack, readFailedOG, hL, hga.1, hga.2.1, hga.2.2] at h
        · -- the guard was already false on the first call
          simp [Reconcile, readObservedGeneration, readLatestCondition, applyTrace, hL, hga]

/-- Witness for C1: after a completed successful cycle on the concrete
generation-2 instance, re-invoking `Reconcile` on the persisted state — even
with a deployment that would fail — changes nothing and emits nothing. -/
theorem reconcile_second_call_noop_witness :
    Reconcile { instReady1 with
        status := applyTrace instReady1.status
          (Reconcile instReady1 DeployResult.success 5).trace }
        DeployResult.failure 9 =
      ⟨{ instReady1 with
          status := applyTrace instReady1.status
            (Reconcile instReady1 DeployResult.success 5).trace },
       [], none⟩ :=
  reconcile_second_call_noop instReady1 DeployResult.success DeployResult.failure 5 9
    (by decide)

end PeprArgo
